import Mathlib

/-!
Verification of the workflow-automation AI engine (`src/engine-py`).

The Python source is shallowly embedded: JSON values become the inductive
type `JVal`, Python dicts become association lists (`Dict`) looked up at the
first matching key, and the process-wide registry caches of `prompts.py` and
`validator.py` become an explicit `RegistryState` that is threaded through
the functions that read them.  Network calls (the LLM provider cascade
together with `extract_json_from_response`) are abstracted as an oracle
`Nat → CallResult` giving, per attempt, either an `HTTPException`, a raw
response with a parse failure, or a raw response with the parsed JSON object.
Wall-clock durations and the backoff sleeps are not modelled.
-/

namespace Engine

/-- A JSON value as produced by `json.loads`. -/
inductive JVal where
  | str (s : String)
  | num (n : Int)
  | bool (b : Bool)
  | null
  | arr (items : List JVal)
  | obj (fields : List (String × JVal))

/-- A Python dict with string keys: an association list, first key wins. -/
abbrev Dict := List (String × JVal)

/-- `d[k]` / `d.get(k)`: the value at the first occurrence of key `k`. -/
def dictGet : Dict → String → Option JVal
  | [], _ => none
  | (k, v) :: rest, key => if k = key then some v else dictGet rest key

/-- `k in d` for a Python dict. -/
def dictHas (d : Dict) (k : String) : Bool :=
  (dictGet d k).isSome

/-- `d[k] = v`: replace the value at the first occurrence of `k`, else append
(Python dicts keep the original insertion position on overwrite). -/
def dictSet : Dict → String → JVal → Dict
  | [], k, v => [(k, v)]
  | (k1, v1) :: rest, k, v =>
      if k1 = k then (k, v) :: rest else (k1, v1) :: dictSet rest k v

/-- Python truthiness of a JSON value (`bool(v)`). -/
def pyTruthy : JVal → Bool
  | .str s => s ≠ ""
  | .num n => n ≠ 0
  | .bool b => b
  | .null => false
  | .arr items => !items.isEmpty
  | .obj fields => !fields.isEmpty

/-- The apostrophe character, spelled by code point. -/
def sq : String := String.singleton (Char.ofNat 39)

mutual

/-- Python `str(v)` for a JSON value, as used by f-string interpolation:
strings render bare, `None`/`True`/`False` in Python spelling, containers
in `repr` form. -/
def pyStr : JVal → String
  | .str s => s
  | .num n => toString n
  | .bool b => bif b then "True" else "False"
  | .null => "None"
  | .arr items => "[" ++ pyStrList items ++ "]"
  | .obj fields => "\x7b" ++ pyStrObj fields ++ "\x7d"

/-- Python `repr(v)`: like `pyStr` but strings are quoted. -/
def pyRepr : JVal → String
  | .str s => sq ++ s ++ sq
  | .num n => toString n
  | .bool b => bif b then "True" else "False"
  | .null => "None"
  | .arr items => "[" ++ pyStrList items ++ "]"
  | .obj fields => "\x7b" ++ pyStrObj fields ++ "\x7d"

/-- Comma-separated `repr`s of list elements. -/
def pyStrList : List JVal → String
  | [] => ""
  | [v] => pyRepr v
  | v :: rest => pyRepr v ++ ", " ++ pyStrList rest

/-- Comma-separated `repr(k): repr(v)` pairs of dict entries. -/
def pyStrObj : List (String × JVal) → String
  | [] => ""
  | [(k, v)] => sq ++ k ++ sq ++ ": " ++ pyRepr v
  | (k, v) :: rest => sq ++ k ++ sq ++ ": " ++ pyRepr v ++ ", " ++ pyStrObj rest

end

/-- Python `s.lower()` (ASCII case mapping suffices for the inputs here). -/
def pyLower (s : String) : String :=
  ⟨s.data.map Char.toLower⟩

/-- Python `s.upper()`. -/
def pyUpper (s : String) : String :=
  ⟨s.data.map Char.toUpper⟩

/-- Python `s.strip()`: drop leading and trailing whitespace. -/
def pyStrip (s : String) : String :=
  ⟨((s.data.dropWhile Char.isWhitespace).reverse.dropWhile Char.isWhitespace).reverse⟩

/-- Python `s[:n]`: the first `n` characters. -/
def pyTake (s : String) (n : Nat) : String :=
  ⟨s.data.take n⟩

/-- Whether `pre` is a prefix of the character list `cs`. -/
def charsPre : List Char → List Char → Bool
  | [], _ => true
  | _ :: _, [] => false
  | p :: ps, c :: cs => p == c && charsPre ps cs

/-- Python `s.startswith(pre)`. -/
def pyStartswith (s pre : String) : Bool :=
  charsPre pre.data s.data

/-- Python `s.replace("_", " ")`. -/
def pyUnderscoreToSpace (s : String) : String :=
  ⟨s.data.map fun c => if c = '_' then ' ' else c⟩

/-- Python `s.title()`: the first cased character of each alphabetic run is
uppercased, the rest lowercased. -/
def pyTitleGo : Bool → List Char → List Char
  | _, [] => []
  | prevAlpha, c :: cs =>
      if c.isAlpha then
        (if prevAlpha then c.toLower else c.toUpper) :: pyTitleGo true cs
      else
        c :: pyTitleGo false cs

def pyTitle (s : String) : String :=
  ⟨pyTitleGo false s.data⟩

-- ════════════════════════════════════════════════════════════════════
--  config.py
-- ════════════════════════════════════════════════════════════════════

/-- `config.ALLOWED_STEPS`: the hardcoded fallback list of allowed steps. -/
def ALLOWED_STEPS : List String :=
  ["fetch_weather", "fetch_stock_price", "fetch_crypto_price", "fetch_data",
   "fetch_url", "scrape_github", "scrape_hackernews", "scrape_reddit",
   "scrape_screener", "scrape_groww", "scrape_hack2skill", "scrape_twitter",
   "format_web_digest", "send_email", "send_sms", "send_whatsapp",
   "send_notification", "send_discord", "send_slack", "notify", "job_search",
   "job_apply", "condition", "delay"]

/-- `config.ALLOWED_TRIGGERS`. -/
def ALLOWED_TRIGGERS : List String :=
  ["manual", "interval", "webhook", "event"]

def isAsciiDigit (c : Char) : Bool :=
  '0' ≤ c && c ≤ '9'

/-- Core match of `^(\d{1,3})(s|m|h|d|w)$` against a character list:
one to three digits followed by a single unit letter. -/
def intervalCore (cs : List Char) : Bool :=
  match cs.getLast? with
  | none => false
  | some u =>
      (u == 's' || u == 'm' || u == 'h' || u == 'd' || u == 'w') &&
      (let ds := cs.dropLast
       decide (1 ≤ ds.length) && decide (ds.length ≤ 3) && ds.all isAsciiDigit)

/-- `config.INTERVAL_PATTERN.match(s) is not None`.  In Python `$` (without
`re.MULTILINE`) also matches just before one trailing newline, so a single
trailing newline is tolerated.  `\d` is modelled as the ASCII digits. -/
def INTERVAL_PATTERN_match (s : String) : Bool :=
  match s.data.getLast? with
  | some c => if c = '\n' then intervalCore s.data.dropLast else intervalCore s.data
  | none => false

/-- `config.validate_interval_format`: non-strings are rejected, strings are
lowercased and matched against `INTERVAL_PATTERN`. -/
def validate_interval_format : JVal → Bool
  | .str s => INTERVAL_PATTERN_match (pyLower s)
  | _ => false

-- ════════════════════════════════════════════════════════════════════
--  The two module-level registry caches
-- ════════════════════════════════════════════════════════════════════

/-- The process-wide mutable caches: `prompts._registry_cache["tool_names"]`
and `validator._dynamic_allowed_steps`.  Both start as `None`. -/
structure RegistryState where
  registry_tool_names : Option (List String)
  dynamic_allowed_steps : Option (List String)

/-- The state at process start, before any registry fetch. -/
def initialRegistryState : RegistryState := ⟨none, none⟩

/-- `validator.get_allowed_steps`: the dynamic list when truthy (set and
non-empty), else the `ALLOWED_STEPS` fallback. -/
def get_allowed_steps (st : RegistryState) : List String :=
  match st.dynamic_allowed_steps with
  | some l => if l.isEmpty then ALLOWED_STEPS else l
  | none => ALLOWED_STEPS

/-- `prompts.get_allowed_tool_names`: the cached registry tool names when
truthy, else the `ALLOWED_STEPS` fallback. -/
def get_allowed_tool_names (st : RegistryState) : List String :=
  match st.registry_tool_names with
  | some l => if l.isEmpty then ALLOWED_STEPS else l
  | none => ALLOWED_STEPS

/-- The state change of a successful `prompts.fetch_registry` (the operation
behind the `/refresh-registry` endpoint): only the prompt-side cache
`_registry_cache["tool_names"]` is written. -/
def fetch_registry_success (st : RegistryState) (toolNames : List String) :
    RegistryState :=
  { st with registry_tool_names := some toolNames }

/-- The state change of a successful `validator.refresh_allowed_steps`
(defined in the source but not invoked by the `/refresh-registry` endpoint):
only `_dynamic_allowed_steps` is written. -/
def refresh_allowed_steps_success (st : RegistryState) (names : List String) :
    RegistryState :=
  { st with dynamic_allowed_steps := some names }

-- ════════════════════════════════════════════════════════════════════
--  validator.py
-- ════════════════════════════════════════════════════════════════════

/-- Python `v == lit` for a JSON value against a string literal. -/
def jIsStr : JVal → String → Bool
  | .str s, t => s == t
  | _, _ => false

/-- Python `v in l` for a JSON value against a list of strings: true exactly
when `v` is a string occurring in `l`. -/
def pyInStrList (v : JVal) (l : List String) : Bool :=
  match v with
  | .str s => l.contains s
  | _ => false

/-- `validator.validate_trigger`. -/
def validate_trigger (trigger : Dict) : Bool × Option String :=
  match dictGet trigger "type" with
  | none => (false, some "Trigger missing 'type' field")
  | some t =>
      if pyInStrList t ALLOWED_TRIGGERS = false then
        (false, some ("Invalid trigger type: " ++ pyStr t ++ ". Allowed: " ++
          String.intercalate ", " ALLOWED_TRIGGERS))
      else if jIsStr t "interval" then
        match dictGet trigger "every" with
        | none => (false, some "Interval trigger missing 'every' field")
        | some e =>
            if validate_interval_format e = false then
              (false, some ("Invalid interval format: " ++ sq ++ pyStr e ++ sq ++
                ". Use format like: 2m, 30s, 1h, 2d, 1w (number + unit)"))
            else (true, none)
      else if jIsStr t "rss" then
        match dictGet trigger "url" with
        | none => (false, some "RSS trigger missing 'url' field (the RSS feed URL to poll)")
        | some _ => (true, none)
      else (true, none)

/-- The per-type required-field chain at the end of `validator.validate_step`
(entered once the step type passed the allow-list). -/
def validate_step_fields (step : Dict) (step_type : JVal) : Bool × Option String :=
  if jIsStr step_type "fetch_stock_price" then
    if dictHas step "symbol" then (true, none)
    else (false, some "fetch_stock_price requires 'symbol'")
  else if jIsStr step_type "fetch_crypto_price" then
    if dictHas step "symbol" then (true, none)
    else (false, some "fetch_crypto_price requires 'symbol'")
  else if jIsStr step_type "send_email" then
    if dictHas step "to" then (true, none)
    else (false, some "send_email requires 'to'")
  else if jIsStr step_type "send_whatsapp" then
    if !dictHas step "to" then (false, some "send_whatsapp requires 'to'")
    else if !dictHas step "message" then (false, some "send_whatsapp requires 'message'")
    else (true, none)
  else if jIsStr step_type "send_sms" then
    if !dictHas step "to" then (false, some "send_sms requires 'to'")
    else if !dictHas step "message" then (false, some "send_sms requires 'message'")
    else (true, none)
  else if jIsStr step_type "send_discord" then
    if !dictHas step "webhook_url" then (false, some "send_discord requires 'webhook_url'")
    else if !dictHas step "message" then (false, some "send_discord requires 'message'")
    else (true, none)
  else if jIsStr step_type "send_slack" then
    if !dictHas step "webhook_url" then (false, some "send_slack requires 'webhook_url'")
    else if !dictHas step "message" then (false, some "send_slack requires 'message'")
    else (true, none)
  else if jIsStr step_type "job_search" then
    if dictHas step "query" then (true, none)
    else (false, some "job_search requires 'query'")
  else if jIsStr step_type "condition" then
    if dictHas step "if" then (true, none)
    else (false, some "condition requires 'if' field (not 'condition')")
  else if jIsStr step_type "scrape_reddit" then
    if dictHas step "subreddit" then (true, none)
    else (false, some "scrape_reddit requires 'subreddit'")
  else if jIsStr step_type "scrape_twitter" then
    if dictHas step "username" then (true, none)
    else (false, some "scrape_twitter requires 'username'")
  else if jIsStr step_type "http_request" then
    if dictHas step "url" then (true, none)
    else (false, some "http_request requires 'url'")
  else if jIsStr step_type "fetch_rss_feed" then
    if dictHas step "url" then (true, none)
    else (false, some "fetch_rss_feed requires 'url'")
  else if jIsStr step_type "ai_summarize" then
    if dictHas step "text" then (true, none)
    else (false, some "ai_summarize requires 'text'")
  else if jIsStr step_type "read_google_sheet" ||
          jIsStr step_type "write_google_sheet" ||
          jIsStr step_type "append_google_sheet" then
    if !dictHas step "spreadsheetId" then
      (false, some (pyStr step_type ++ " requires 'spreadsheetId'"))
    else if !dictHas step "range" then
      (false, some (pyStr step_type ++ " requires 'range'"))
    else (true, none)
  else (true, none)

/-- `validator.validate_step` with the allowed list passed explicitly (as
`validate_automation` does). -/
def validate_step (step : JVal) (allowed_steps : List String) : Bool × Option String :=
  match step with
  | .obj fields =>
      match dictGet fields "type" with
      | none => (false, some "Step missing 'type' field")
      | some step_type =>
          if pyInStrList step_type allowed_steps = false then
            (false, some ("Unsupported step type: " ++ sq ++ pyStr step_type ++ sq ++
              ". Allowed types: " ++ String.intercalate ", " allowed_steps))
          else validate_step_fields fields step_type
  | _ => (false, some "Step must be an object")

/-- The `for i, step in enumerate(data["steps"])` loop of
`validate_automation`; `i` is the 1-based index shown in the message. -/
def validate_steps (allowed : List String) : Nat → List JVal → Bool × Option String
  | _, [] => (true, none)
  | i, s :: rest =>
      match validate_step s allowed with
      | (true, _) => validate_steps allowed (i + 1) rest
      | (false, e) =>
          (false, some ("Step " ++ toString i ++ ": " ++
            (match e with | some m => m | none => "None")))

/-- `validator.validate_automation`.  The allowed-steps list is read from the
registry state (`get_allowed_steps`). -/
def validate_automation (st : RegistryState) (data : Dict) : Bool × Option String :=
  if dictHas data "error" then (true, none)
  else
    match dictGet data "name" with
    | some (.str _) =>
        match dictGet data "trigger" with
        | some (.obj trigger) =>
            match dictGet data "steps" with
            | some (.arr steps) =>
                if steps.isEmpty then
                  (false, some "Automation must have at least one step")
                else
                  match validate_trigger trigger with
                  | (true, _) => validate_steps (get_allowed_steps st) 1 steps
                  | (false, e) => (false, e)
            | _ => (false, some "Missing or invalid 'steps' field")
        | _ => (false, some "Missing or invalid 'trigger' field")
    | _ => (false, some "Missing or invalid 'name' field")

/-- `validator.sanitize_automation`: fill in `status` and `description` when
absent. -/
def sanitize_automation (data : Dict) : Dict :=
  let d1 := if dictHas data "status" then data
            else dictSet data "status" (JVal.str "draft")
  if dictHas d1 "description" then d1
  else
    dictSet d1 "description"
      (JVal.str ("Automation: " ++ pyStr ((dictGet d1 "name").getD (JVal.str "Unnamed"))))

-- ════════════════════════════════════════════════════════════════════
--  Quick sanity examples (concrete evaluations of the embedding)
-- ════════════════════════════════════════════════════════════════════

example : validate_interval_format (JVal.str "5m") = true := by decide
example : validate_interval_format (JVal.str "5M") = true := by decide
example : validate_interval_format (JVal.str "5 minutes") = false := by decide
example : validate_interval_format (JVal.str "m5") = false := by decide
example : validate_interval_format (JVal.str "") = false := by decide
example : validate_interval_format (JVal.str "1234s") = false := by decide
example : INTERVAL_PATTERN_match "5M" = false := by decide

example :
    validate_trigger [("type", JVal.str "rss"), ("url", JVal.str "https://x.dev/feed")] =
      (false, some ("Invalid trigger type: rss. Allowed: manual, interval, webhook, event")) := by
  decide

example :
    validate_automation initialRegistryState
      [("name", JVal.str "A"), ("trigger", JVal.obj [("type", JVal.str "manual")]),
       ("steps", JVal.arr [JVal.obj [("type", JVal.str "delay")]])] = (true, none) := by
  decide

-- ════════════════════════════════════════════════════════════════════
--  required_fields.py
-- ════════════════════════════════════════════════════════════════════

/-- One entry of a `questions` table: the keys `get_next_question` reads
(`question` and `options`; the `examples` / `default` / `mapping` keys of the
source table are read by no code path modelled here). -/
structure FieldQuestion where
  question : String
  options : Option (List String)

/-- The `questions` sub-table of `REQUIRED_FIELDS["stock_monitor"]`. -/
def stock_monitor_questions : String → Option FieldQuestion
  | "symbol" => some ⟨"Which stock would you like to monitor?", none⟩
  | "interval" => some ⟨"How often should I check?",
      some ["Every minute", "Every 5 minutes", "Every hour", "Daily"]⟩
  | "notification_channel" => some ⟨"Where should I send the updates?",
      some ["WhatsApp", "Email", "In-app notification"]⟩
  | _ => none

/-- The `questions` sub-table of `REQUIRED_FIELDS["crypto_monitor"]`. -/
def crypto_monitor_questions : String → Option FieldQuestion
  | "symbol" => some ⟨"Which cryptocurrency?",
      some ["Bitcoin (BTC)", "Ethereum (ETH)", "Solana (SOL)"]⟩
  | "interval" => some ⟨"How often should I check?",
      some ["Every minute", "Every 5 minutes", "Every hour"]⟩
  | "notification_channel" => some ⟨"Where should I send the updates?",
      some ["WhatsApp", "Email", "In-app notification"]⟩
  | _ => none

/-- The `questions` sub-table of `REQUIRED_FIELDS["job_alert"]`. -/
def job_alert_questions : String → Option FieldQuestion
  | "query" => some ⟨"What kind of jobs are you looking for?", none⟩
  | "interval" => some ⟨"How often should I search?",
      some ["Every hour", "Daily", "Weekly"]⟩
  | "notification_channel" => some ⟨"Where should I send job alerts?",
      some ["WhatsApp", "Email"]⟩
  | _ => none

/-- The `questions` sub-table of `REQUIRED_FIELDS["price_alert"]`. -/
def price_alert_questions : String → Option FieldQuestion
  | "symbol" => some ⟨"Which stock or crypto?", none⟩
  | "condition" => some ⟨"Should I alert when price goes above or below?",
      some ["Above", "Below"]⟩
  | "threshold" => some ⟨"At what price should I alert you?", none⟩
  | "notification_channel" => some ⟨"Where should I send the alert?",
      some ["WhatsApp", "Email", "In-app notification"]⟩
  | _ => none

/-- `required_fields.DEFAULT_REQUIRED_FIELDS`. -/
def DEFAULT_REQUIRED_FIELDS : List String := ["notification_channel"]

/-- `required_fields.get_required_fields`: the `fields` list and `questions`
table of `REQUIRED_FIELDS[intent]`, or the default configuration for an
unknown intent. -/
def get_required_fields (intent : String) :
    List String × (String → Option FieldQuestion) :=
  match intent with
  | "stock_monitor" =>
      (["symbol", "interval", "notification_channel"], stock_monitor_questions)
  | "crypto_monitor" =>
      (["symbol", "interval", "notification_channel"], crypto_monitor_questions)
  | "job_alert" =>
      (["query", "interval", "notification_channel"], job_alert_questions)
  | "price_alert" =>
      (["symbol", "condition", "threshold", "notification_channel"],
       price_alert_questions)
  | _ => (DEFAULT_REQUIRED_FIELDS, fun _ => none)

/-- `required_fields.get_missing_field_question`. -/
def get_missing_field_question (intent field : String) : FieldQuestion :=
  match (get_required_fields intent).2 field with
  | some q => q
  | none => ⟨"What should the " ++ pyUnderscoreToSpace field ++ " be?", none⟩

/-- `required_fields.normalize_channel_response`. -/
def normalize_channel_response (response : String) : String :=
  match pyStrip (pyLower response) with
  | "whatsapp" => "send_whatsapp"
  | "email" => "send_email"
  | "in-app" => "send_notification"
  | "in-app notification" => "send_notification"
  | "notification" => "send_notification"
  | "sms" => "send_sms"
  | _ => "send_notification"

/-- `required_fields.normalize_interval_response`: unknown phrases are
returned unchanged. -/
def normalize_interval_response (response : String) : String :=
  match pyStrip (pyLower response) with
  | "every minute" => "1m"
  | "every 5 minutes" => "5m"
  | "every 15 minutes" => "15m"
  | "every 30 minutes" => "30m"
  | "every hour" => "1h"
  | "hourly" => "1h"
  | "daily" => "1d"
  | "weekly" => "1w"
  | _ => response

-- ════════════════════════════════════════════════════════════════════
--  clarification.py
-- ════════════════════════════════════════════════════════════════════

/-- The per-field test of `ClarificationHandler.detect_missing_fields`:
`field not in extracted_entities or not extracted_entities.get(field)`. -/
def fieldMissing (entities : Dict) (field : String) : Bool :=
  !dictHas entities field || !pyTruthy ((dictGet entities field).getD JVal.null)

/-- `ClarificationHandler.detect_missing_fields`: the required fields of the
intent that are absent or falsy, in table order. -/
def detect_missing_fields (intent : String) (entities : Dict) : List String :=
  (get_required_fields intent).1.filter (fieldMissing entities)

/-- `ClarificationHandler.needs_clarification`. -/
def needs_clarification (intent : String) (entities : Dict) : Bool :=
  !(detect_missing_fields intent entities).isEmpty

/-- The response dict `get_next_question` builds (modelled as a structure;
the source returns a dict with exactly these keys). -/
structure ClarResponse where
  needs_clarification : Bool
  missing_field : String
  question : String
  options : Option (List String)
  response_mode : String
  ssml : Option String
  partial_context : Dict

/-- `", ".join(options[:-1]) + f", or {options[-1]}" if len(options) > 1 else
options[0]` (the list is non-empty when this is evaluated). -/
def voiceOptionsText (options : List String) : String :=
  if options.length > 1 then
    String.intercalate ", " options.dropLast ++ ", or " ++
      (options.getLast?.getD "")
  else (options.head?.getD "")

/-- `ClarificationHandler.get_next_question`: `none` when nothing is missing,
else a single question about the first missing field. -/
def get_next_question (intent : String) (entities : Dict)
    (input_mode : String) : Option ClarResponse :=
  match detect_missing_fields intent entities with
  | [] => none
  | next_field :: _ =>
      let qc := get_missing_field_question intent next_field
      let question_text := qc.question
      let options := qc.options
      let hasOptions := match options with
        | some l => !l.isEmpty
        | none => false
      let fq_ssml : String × Option String :=
        if input_mode = "voice" then
          if hasOptions then
            let ot := voiceOptionsText (options.getD [])
            (question_text ++ " You can say " ++ ot ++ ".",
             some ("<speak>" ++ question_text ++ " <break time=" ++ sq ++
               "300ms" ++ sq ++ "/> You can say " ++ ot ++ ".</speak>"))
          else (question_text, some ("<speak>" ++ question_text ++ "</speak>"))
        else (question_text, none)
      some
        { needs_clarification := true
          missing_field := next_field
          question := fq_ssml.1
          options := options
          response_mode := input_mode
          ssml := fq_ssml.2
          partial_context :=
            entities.foldl (fun acc kv => dictSet acc kv.1 kv.2)
              [("intent", JVal.str intent)] }

/-- `ClarificationHandler.merge_context`: store the (field-normalized) answer
under the previously asked field name. -/
def merge_context (previous_context : Dict) (new_field new_value : String) :
    Dict :=
  if new_field = "notification_channel" then
    dictSet previous_context new_field (JVal.str (normalize_channel_response new_value))
  else if new_field = "interval" then
    dictSet previous_context new_field (JVal.str (normalize_interval_response new_value))
  else
    dictSet previous_context new_field (JVal.str new_value)

example :
    (get_next_question "stock_monitor" [("symbol", JVal.str "AAPL")] "text").map
      ClarResponse.missing_field = some "interval" := by decide

example : merge_context [] "interval" "daily" = [("interval", JVal.str "1d")] := rfl

example :
    dictGet (merge_context [] "notification_channel" "") "notification_channel" =
      some (JVal.str "send_notification") := rfl

-- ════════════════════════════════════════════════════════════════════
--  app.py — generate_with_retry
-- ════════════════════════════════════════════════════════════════════

/-- `RETRY_CONFIG["max_attempts"]`. -/
def RETRY_CONFIG_max_attempts : Nat := 3

/-- What one `call_llm` + `extract_json_from_response` round yields, per
attempt index: the provider cascade raised `HTTPException`; or a raw
response text whose JSON extraction either failed (`ValueError` message) or
produced an object. -/
inductive CallResult where
  | httpException
  | ok (raw : String) (parsed : Except String Dict)

/-- The prompt `generate_with_retry` sends on one attempt: the full
generation prompt on attempt 1, or `RETRY_CORRECTION_PROMPT` formatted with
the previous error, the (truncated) previous output, the user request, and
the joined allowed-step names. -/
inductive Prompt where
  | initial (userRequest : String)
  | correction (error invalidOutput userRequest allowedSteps : String)

/-- One Attempt Record (the `duration_seconds` key, wall-clock time, is not
modelled). -/
structure AttemptRecord where
  attempt : Nat
  status : String
  error : Option String
  raw_output : Option String

/-- The outcome of `generate_with_retry`: the success or failure dict it
returns, or a propagated `HTTPException`. -/
inductive GenOutcome where
  | success (automation : Dict)
  | failure (finalError : Option String)
  | httpError

/-- A full run: outcome, the internal `attempts` list, and the prompts sent
(one per `call_llm` call, in order). -/
structure RunTrace where
  outcome : GenOutcome
  records : List AttemptRecord
  calls : List Prompt

/-- The body of one attempt after `call_llm` returned text: parse; reject an
object carrying an `error` key (`"LLM returned error: ..."`); validate
(`"Validation failed: ..."`); sanitize on success. -/
def attempt_once (st : RegistryState) (parsed : Except String Dict) :
    Except String Dict :=
  match parsed with
  | .error msg => .error msg
  | .ok automation =>
      if dictHas automation "error" then
        .error ("LLM returned error: " ++
          pyStr ((dictGet automation "error").getD JVal.null))
      else
        match validate_automation st automation with
        | (true, _) => .ok (sanitize_automation automation)
        | (false, verr) =>
            .error ("Validation failed: " ++
              (match verr with | some m => m | none => "None"))

/-- The attempt record appended on a failed attempt: `raw_output` is stored
truncated to 500 characters, or `None` when the raw text is falsy. -/
def failedRecord (attempt : Nat) (errMsg raw : String) : AttemptRecord :=
  ⟨attempt, "failed", some errMsg, if raw = "" then none else some (pyTake raw 500)⟩

/-- `prev_error` for a retry prompt: `attempts[-1]["error"]` (rendered as
Python's `str` would render it; a failed record always holds a string). -/
def prevErrorOf (acc : List AttemptRecord) : String :=
  match acc.getLast? with
  | some r => match r.error with | some e => e | none => "None"
  | none => "None"

/-- `prev_output` for a retry prompt: `attempts[-1]["raw_output"] or
"No output"`. -/
def prevOutputOf (acc : List AttemptRecord) : String :=
  match acc.getLast? with
  | some r =>
      match r.raw_output with
      | some s => if s = "" then "No output" else s
      | none => "No output"
  | none => "No output"

/-- The `for attempt in range(1, max_attempts + 1)` loop of
`generate_with_retry`, recursing on the attempts remaining.  The raw LLM
response never raises, so the only paths are: `HTTPException` propagated
without recording an attempt; a successful pipeline ending the loop; or a
retryable failure recorded and retried.  The backoff sleep is timing only. -/
def generate_with_retry_aux (llm : Nat → CallResult) (user_request : String)
    (st : RegistryState) :
    Nat → Nat → List AttemptRecord → List Prompt → RunTrace
  | 0, _, acc, calls =>
      ⟨.failure (match acc.getLast? with
                 | some r => r.error
                 | none => some "Unknown error"), acc, calls⟩
  | fuel + 1, attempt, acc, calls =>
      let full_prompt :=
        if attempt = 1 then Prompt.initial user_request
        else
          Prompt.correction (prevErrorOf acc) (pyTake (prevOutputOf acc) 2000)
            user_request (String.intercalate ", " (get_allowed_tool_names st))
      let calls1 := calls ++ [full_prompt]
      match llm attempt with
      | .httpException => ⟨.httpError, acc, calls1⟩
      | .ok raw parsed =>
          match attempt_once st parsed with
          | .ok automation =>
              ⟨.success automation, acc ++ [⟨attempt, "success", none, none⟩], calls1⟩
          | .error errMsg =>
              generate_with_retry_aux llm user_request st fuel (attempt + 1)
                (acc ++ [failedRecord attempt errMsg raw]) calls1

/-- `app.generate_with_retry`. -/
def generate_with_retry (llm : Nat → CallResult) (user_request : String)
    (st : RegistryState) : RunTrace :=
  generate_with_retry_aux llm user_request st RETRY_CONFIG_max_attempts 1 [] []

-- ════════════════════════════════════════════════════════════════════
--  app.py — build_automation_from_context and the conversation
--  completion path
-- ════════════════════════════════════════════════════════════════════

/-- The intent-specific fetch steps of `build_automation_from_context`;
`none` models the `AttributeError` Python raises when `.upper()` is called
on a non-string `symbol`. -/
def buildFetchSteps (context : Dict) (intent : JVal) : Option (List JVal) :=
  if jIsStr intent "stock_monitor" then
    match (dictGet context "symbol").getD (JVal.str "UNKNOWN") with
    | .str s => some [JVal.obj [("type", JVal.str "fetch_stock_price"),
        ("symbol", JVal.str (pyUpper s))]]
    | _ => none
  else if jIsStr intent "crypto_monitor" then
    match (dictGet context "symbol").getD (JVal.str "BTC") with
    | .str s => some [JVal.obj [("type", JVal.str "fetch_crypto_price"),
        ("symbol", JVal.str (pyUpper s))]]
    | _ => none
  else if jIsStr intent "job_alert" then
    some [JVal.obj [("type", JVal.str "job_search"),
      ("query", (dictGet context "query").getD (JVal.str "developer"))]]
  else some []

/-- The notification step appended by `build_automation_from_context`:
channel resolution (`.startswith("send_")`, else normalization) and the
message built from a truthy `symbol`; `none` models the `AttributeError` on
a non-string channel or a truthy non-string symbol. -/
def buildNotifStep (context : Dict) : Option JVal :=
  match (dictGet context "notification_channel").getD (JVal.str "send_notification") with
  | .str channel =>
      let notification_type :=
        if pyStartswith channel "send_" then channel
        else normalize_channel_response channel
      let symbol := (dictGet context "symbol").getD (JVal.str "")
      if pyTruthy symbol then
        match symbol with
        | .str s => some (JVal.obj [("type", JVal.str notification_type),
            ("message", JVal.str (pyUpper s ++ " update"))])
        | _ => none
      else some (JVal.obj [("type", JVal.str notification_type),
        ("message", JVal.str "Automation update")])
  | _ => none

/-- The automation name: `f"{context.get('symbol', 'Automation').upper()}
{intent.replace('_', ' ').title()}"`; `none` on a non-string symbol or
intent. -/
def buildName (context : Dict) (intent : JVal) : Option String :=
  match (dictGet context "symbol").getD (JVal.str "Automation"), intent with
  | .str s, .str it =>
      some (pyUpper s ++ " " ++ pyTitle (pyUnderscoreToSpace it))
  | _, _ => none

/-- `app.build_automation_from_context`.  `none` models an uncaught
`AttributeError` (non-string entity where the source calls a string method);
on success the returned dict is exactly the literal the source builds. -/
def build_automation_from_context (context : Dict) : Option Dict := do
  let intent := (dictGet context "intent").getD (JVal.str "custom")
  let interval := (dictGet context "interval").getD (JVal.str "5m")
  let trigger := JVal.obj [("type", JVal.str "interval"), ("every", interval)]
  let fetchSteps ← buildFetchSteps context intent
  let notifStep ← buildNotifStep context
  let name ← buildName context intent
  pure [("name", JVal.str name),
        ("description", JVal.str ("Auto-generated " ++ pyStr intent ++ " automation")),
        ("trigger", trigger),
        ("steps", JVal.arr (fetchSteps ++ [notifStep])),
        ("status", JVal.str "draft")]

/-- The completion branch of the `/conversation` endpoint once no required
field is missing: `build_automation_from_context` then
`sanitize_automation`, with no call to `validate_automation`. -/
def conversation_complete (context : Dict) : Option Dict :=
  (build_automation_from_context context).map sanitize_automation

example :
    (build_automation_from_context
      [("intent", JVal.str "price_alert"), ("symbol", JVal.str "TSLA")]).bind
      (fun a => dictGet a "trigger") =
    some (JVal.obj [("type", JVal.str "interval"), ("every", JVal.str "5m")]) := rfl

-- ════════════════════════════════════════════════════════════════════
--  Helper lemmas about the validator
-- ════════════════════════════════════════════════════════════════════

/-- Setting a key then reading it back yields the stored value. -/
lemma dictGet_dictSet (d : Dict) (k : String) (v : JVal) :
    dictGet (dictSet d k v) k = some v := by
  induction d with
  | nil => simp [dictSet, dictGet]
  | cons kv rest ih =>
      obtain ⟨k1, v1⟩ := kv
      by_cases h : k1 = k <;> simp [dictSet, dictGet, h, ih]

/-- The head of a `filter` is the first element of the list satisfying the
predicate: everything before it in the original list fails the predicate. -/
lemma filter_head_split {α : Type} (p : α → Bool) :
    ∀ (l : List α) (x : α) (xs : List α), l.filter p = x :: xs →
      ∃ pre post, l = pre ++ x :: post ∧ (∀ f ∈ pre, p f = false) ∧ p x = true
  | [], x, xs, h => by simp at h
  | a :: l, x, xs, h => by
      by_cases ha : p a = true
      · rw [List.filter_cons, if_pos ha] at h
        obtain ⟨rfl, _⟩ := List.cons.inj h
        exact ⟨[], l, rfl, by simp, ha⟩
      · rw [List.filter_cons, if_neg ha] at h
        obtain ⟨pre, post, hl, hpre, hx⟩ := filter_head_split p l x xs h
        refine ⟨a :: pre, post, by simp [hl], ?_, hx⟩
        intro f hf
        rcases List.mem_cons.1 hf with rfl | hf
        · simpa using ha
        · exact hpre f hf

/-- A step the validator passes is an object whose `type` is a string in the
allowed list. -/
lemma validate_step_sound (s : JVal) (allowed : List String)
    (h : (validate_step s allowed).1 = true) :
    ∃ fields t, s = JVal.obj fields ∧
      dictGet fields "type" = some (JVal.str t) ∧ t ∈ allowed := by
  cases s with
  | obj fields =>
      refine ⟨fields, ?_⟩
      cases hty : dictGet fields "type" with
      | none => simp [validate_step, hty] at h
      | some step_type =>
          by_cases hin : pyInStrList step_type allowed = false
          · simp [validate_step, hty, hin] at h
          · cases step_type with
            | str t =>
                refine ⟨t, rfl, rfl, ?_⟩
                have : allowed.contains t = true := by
                  simpa [pyInStrList] using hin
                simpa using this
            | num n => simp [pyInStrList] at hin
            | bool b => simp [pyInStrList] at hin
            | null => simp [pyInStrList] at hin
            | arr l => simp [pyInStrList] at hin
            | obj l => simp [pyInStrList] at hin
  | str s => simp [validate_step] at h
  | num n => simp [validate_step] at h
  | bool b => simp [validate_step] at h
  | null => simp [validate_step] at h
  | arr l => simp [validate_step] at h

/-- When the step loop succeeds, every step passed `validate_step`. -/
lemma validate_steps_sound (allowed : List String) :
    ∀ (i : Nat) (l : List JVal), validate_steps allowed i l = (true, none) →
      ∀ s ∈ l, (validate_step s allowed).1 = true
  | _, [], _, s, hs => by simp at hs
  | i, a :: l, h, s, hs => by
      rcases hsv : validate_step a allowed with ⟨b, e⟩
      cases b with
      | false => simp [validate_steps, hsv] at h
      | true =>
          rcases List.mem_cons.1 hs with rfl | hs
          · simp [hsv]
          · have hrec : validate_steps allowed (i + 1) l = (true, none) := by
              simpa [validate_steps, hsv] using h
            exact validate_steps_sound allowed (i + 1) l hrec s hs

/-- Decomposition of a successful `validate_automation` run on a dict
without an `error` key: the trigger dict passed `validate_trigger` and the
steps list passed the step loop. -/
lemma validate_automation_parts (st : RegistryState) (data : Dict)
    (hok : validate_automation st data = (true, none))
    (herr : dictHas data "error" = false) :
    (∃ trigger, dictGet data "trigger" = some (JVal.obj trigger) ∧
       (validate_trigger trigger).1 = true) ∧
    (∃ steps, dictGet data "steps" = some (JVal.arr steps) ∧
       validate_steps (get_allowed_steps st) 1 steps = (true, none)) := by
  rw [validate_automation, herr] at hok
  simp only [Bool.false_eq_true, if_false] at hok
  cases hname : dictGet data "name" with
  | none => rw [hname] at hok; simp at hok
  | some nv =>
      cases nv <;> rw [hname] at hok <;> try simp at hok
      case str _ =>
        cases htr : dictGet data "trigger" with
        | none => rw [htr] at hok; simp at hok
        | some tv =>
            cases tv <;> rw [htr] at hok <;> try simp at hok
            case obj trigger =>
              cases hst : dictGet data "steps" with
              | none => rw [hst] at hok; simp at hok
              | some sv =>
                  cases sv <;> rw [hst] at hok <;> try simp at hok
                  case arr steps =>
                    by_cases hemp : steps.isEmpty
                    · simp [hemp] at hok
                    · simp only [hemp, Bool.false_eq_true, if_false] at hok
                      rcases htv : validate_trigger trigger with ⟨tb, te⟩
                      cases tb with
                      | false => rw [htv] at hok; simp at hok
                      | true =>
                          rw [htv] at hok
                          simp only at hok
                          exact ⟨⟨trigger, rfl, by simp [htv]⟩,
                            ⟨steps, rfl, hok⟩⟩

/-- An interval trigger the validator passes carries an `every` string whose
lowercasing matches the interval pattern. -/
lemma validate_trigger_interval_sound (trigger : Dict)
    (h : (validate_trigger trigger).1 = true)
    (hty : dictGet trigger "type" = some (JVal.str "interval")) :
    ∃ s, dictGet trigger "every" = some (JVal.str s) ∧
      INTERVAL_PATTERN_match (pyLower s) = true := by
  rw [validate_trigger, hty] at h
  simp only [show pyInStrList (JVal.str "interval") ALLOWED_TRIGGERS = true from rfl,
    show jIsStr (JVal.str "interval") "interval" = true from rfl] at h
  cases hev : dictGet trigger "every" with
  | none => rw [hev] at h; simp at h
  | some e =>
      rw [hev] at h
      by_cases hfmt : validate_interval_format e = false
      · simp [hfmt] at h
      · cases e with
        | str s =>
            exact ⟨s, rfl, by simpa [validate_interval_format] using hfmt⟩
        | num n => simp [validate_interval_format] at hfmt
        | bool b => simp [validate_interval_format] at hfmt
        | null => simp [validate_interval_format] at hfmt
        | arr l => simp [validate_interval_format] at hfmt
        | obj l => simp [validate_interval_format] at hfmt

-- ════════════════════════════════════════════════════════════════════
--  C1 — vocabulary closure
-- ════════════════════════════════════════════════════════════════════

/-- C1, counterexample to the claim as stated: a dict with an `error` key is
returned as `(True, None)` by `validate_automation` although its `steps`
hold a `type` outside the allowed-operations list, so "whenever
validate_automation(data) returns (True, None), every step type is in
get_allowed_steps()" is false. -/
theorem C1_counterexample :
    validate_automation initialRegistryState
      [("error", JVal.str "cannot create this automation"),
       ("steps", JVal.arr [JVal.obj [("type", JVal.str "launch_rockets")]])] =
      (true, none) ∧
    "launch_rockets" ∉ get_allowed_steps initialRegistryState := by
  constructor
  · rfl
  · decide

/-- C1, amended: whenever `validate_automation(data)` returns `(True, None)`
and `data` does not contain an `error` key, every element of `data["steps"]`
is an object whose `type` value is a string in `get_allowed_steps()` at
validation time. -/
theorem C1_vocabulary_closure (st : RegistryState) (data : Dict)
    (hok : validate_automation st data = (true, none))
    (herr : dictHas data "error" = false) :
    ∃ steps, dictGet data "steps" = some (JVal.arr steps) ∧
      ∀ s ∈ steps, ∃ fields t, s = JVal.obj fields ∧
        dictGet fields "type" = some (JVal.str t) ∧
        t ∈ get_allowed_steps st := by
  obtain ⟨_, steps, hst, hloop⟩ := validate_automation_parts st data hok herr
  exact ⟨steps, hst, fun s hs =>
    validate_step_sound s (get_allowed_steps st)
      (validate_steps_sound (get_allowed_steps st) 1 steps hloop s hs)⟩

/-- C1, witness: the amended theorem applied to a concrete automation that
validates without an `error` key. -/
theorem C1_witness :
    ∃ steps,
      dictGet
        [("name", JVal.str "Check"),
         ("trigger", JVal.obj [("type", JVal.str "manual")]),
         ("steps", JVal.arr [JVal.obj [("type", JVal.str "delay")]])] "steps" =
        some (JVal.arr steps) ∧
      ∀ s ∈ steps, ∃ fields t, s = JVal.obj fields ∧
        dictGet fields "type" = some (JVal.str t) ∧
        t ∈ get_allowed_steps initialRegistryState :=
  C1_vocabulary_closure initialRegistryState
    [("name", JVal.str "Check"),
     ("trigger", JVal.obj [("type", JVal.str "manual")]),
     ("steps", JVal.arr [JVal.obj [("type", JVal.str "delay")]])]
    (by decide) (by decide)

-- ════════════════════════════════════════════════════════════════════
--  C3 — trigger vocabulary (rss)
-- ════════════════════════════════════════════════════════════════════

/-- C3: `config.ALLOWED_TRIGGERS` is `[manual, interval, webhook, event]` —
it does not contain `rss` — so a trigger of type `rss` with a `url` field is
rejected by `validate_trigger` with an "Invalid trigger type" message, and
the dedicated rss-requires-url branch of `validate_trigger` is unreachable.
This contradicts the claim (and the generation prompt, which advertises
`rss` as a trigger type with two worked rss examples). -/
theorem C3_rss_trigger_rejected :
    validate_trigger
      [("type", JVal.str "rss"), ("url", JVal.str "https://techcrunch.com/feed/")] =
      (false, some "Invalid trigger type: rss. Allowed: manual, interval, webhook, event") ∧
    "rss" ∉ ALLOWED_TRIGGERS ∧
    validate_trigger [("type", JVal.str "event")] = (true, none) := by
  refine ⟨?_, by decide, ?_⟩ <;> rfl

-- ════════════════════════════════════════════════════════════════════
--  C6 — the two allowed-operations caches
-- ════════════════════════════════════════════════════════════════════

/-- C6, counterexample: after a successful registry refresh
(`fetch_registry`, the operation behind `/refresh-registry`), the Prompt
Builder's `get_allowed_tool_names` and the Validator's `get_allowed_steps`
read different lists, so they are not a single shared set. -/
theorem C6_counterexample :
    get_allowed_tool_names
        (fetch_registry_success initialRegistryState ["summarize_tool"]) ≠
      get_allowed_steps
        (fetch_registry_success initialRegistryState ["summarize_tool"]) := by
  decide

/-- C6, amended: the two readers use separate caches.  They agree at process
start (both fall back to `ALLOWED_STEPS`), but `fetch_registry` writes only
the prompt-side cache: the validator's `_dynamic_allowed_steps` — hence
`get_allowed_steps` — is unchanged by a refresh, while
`get_allowed_tool_names` starts returning the fetched list (when non-empty). -/
theorem C6_two_separate_caches :
    get_allowed_tool_names initialRegistryState =
      get_allowed_steps initialRegistryState ∧
    (∀ (st : RegistryState) (names : List String),
       (fetch_registry_success st names).dynamic_allowed_steps =
         st.dynamic_allowed_steps) ∧
    (∀ (st : RegistryState) (names : List String),
       get_allowed_steps (fetch_registry_success st names) = get_allowed_steps st) ∧
    (∀ (st : RegistryState) (names : List String),
       get_allowed_tool_names (fetch_registry_success st names) =
         if names.isEmpty then ALLOWED_STEPS else names) :=
  ⟨rfl, fun _ _ => rfl, fun _ _ => rfl, fun _ _ => rfl⟩

-- ════════════════════════════════════════════════════════════════════
--  C7 — interval shape
-- ════════════════════════════════════════════════════════════════════

/-- C7, counterexample to the claim as stated: `validate_interval_format`
lowercases before matching, so an automation whose interval trigger has
`every = "5M"` is accepted although `"5M"` does not match
`^\d{1,3}(s|m|h|d|w)$`. -/
theorem C7_counterexample :
    validate_automation initialRegistryState
      [("name", JVal.str "Monitor"),
       ("trigger", JVal.obj [("type", JVal.str "interval"), ("every", JVal.str "5M")]),
       ("steps", JVal.arr [JVal.obj [("type", JVal.str "delay")]])] = (true, none) ∧
    INTERVAL_PATTERN_match "5M" = false := by
  exact ⟨rfl, by decide⟩

/-- C7, amended: for every accepted automation without an `error` key whose
trigger has type `interval`, the `every` value is a string whose
**lowercasing** matches `^\d{1,3}(s|m|h|d|w)$` (matching is
case-insensitive); the invalid examples `"5 minutes"`, `"m5"` and `""` are
rejected with the "Invalid interval format" message (which names the
offending value and the expected format, not the field name `every`). -/
theorem C7_interval_shape (st : RegistryState) (data trigger : Dict)
    (hok : validate_automation st data = (true, none))
    (herr : dictHas data "error" = false)
    (htr : dictGet data "trigger" = some (JVal.obj trigger))
    (hty : dictGet trigger "type" = some (JVal.str "interval")) :
    (∃ s, dictGet trigger "every" = some (JVal.str s) ∧
       INTERVAL_PATTERN_match (pyLower s) = true) ∧
    validate_trigger [("type", JVal.str "interval"), ("every", JVal.str "5 minutes")] =
      (false, some ("Invalid interval format: " ++ sq ++ "5 minutes" ++ sq ++
        ". Use format like: 2m, 30s, 1h, 2d, 1w (number + unit)")) ∧
    validate_trigger [("type", JVal.str "interval"), ("every", JVal.str "m5")] =
      (false, some ("Invalid interval format: " ++ sq ++ "m5" ++ sq ++
        ". Use format like: 2m, 30s, 1h, 2d, 1w (number + unit)")) ∧
    validate_trigger [("type", JVal.str "interval"), ("every", JVal.str "")] =
      (false, some ("Invalid interval format: " ++ sq ++ sq ++
        ". Use format like: 2m, 30s, 1h, 2d, 1w (number + unit)")) := by
  refine ⟨?_, rfl, rfl, rfl⟩
  obtain ⟨⟨trigger2, htr2, htrv⟩, _⟩ := validate_automation_parts st data hok herr
  rw [htr] at htr2
  obtain ⟨rfl⟩ : trigger = trigger2 := by
    injection htr2 with h2
    injection h2 with h3
  exact validate_trigger_interval_sound trigger htrv hty

/-- C7, witness: the amended theorem applied to a concrete accepted
automation with interval `"2m"`. -/
theorem C7_witness :
    (∃ s, dictGet [("type", JVal.str "interval"), ("every", JVal.str "2m")] "every" =
        some (JVal.str s) ∧ INTERVAL_PATTERN_match (pyLower s) = true) ∧
    validate_trigger [("type", JVal.str "interval"), ("every", JVal.str "5 minutes")] =
      (false, some ("Invalid interval format: " ++ sq ++ "5 minutes" ++ sq ++
        ". Use format like: 2m, 30s, 1h, 2d, 1w (number + unit)")) ∧
    validate_trigger [("type", JVal.str "interval"), ("every", JVal.str "m5")] =
      (false, some ("Invalid interval format: " ++ sq ++ "m5" ++ sq ++
        ". Use format like: 2m, 30s, 1h, 2d, 1w (number + unit)")) ∧
    validate_trigger [("type", JVal.str "interval"), ("every", JVal.str "")] =
      (false, some ("Invalid interval format: " ++ sq ++ sq ++
        ". Use format like: 2m, 30s, 1h, 2d, 1w (number + unit)")) :=
  C7_interval_shape initialRegistryState
    [("name", JVal.str "M"),
     ("trigger", JVal.obj [("type", JVal.str "interval"), ("every", JVal.str "2m")]),
     ("steps", JVal.arr [JVal.obj [("type", JVal.str "notify")]])]
    [("type", JVal.str "interval"), ("every", JVal.str "2m")]
    (by decide) (by decide) (by exact rfl) (by exact rfl)

-- ════════════════════════════════════════════════════════════════════
--  C10 — falsy entity values
-- ════════════════════════════════════════════════════════════════════

/-- C10, counterexample to the claim as stated: merging the falsy answer
`""` for `notification_channel` does NOT leave the conversation collecting —
`normalize_channel_response` maps any unrecognized (including empty) answer
to `"send_notification"`, which is truthy, so the field counts as filled. -/
theorem C10_counterexample :
    needs_clarification "stock_monitor"
      (merge_context
        [("intent", JVal.str "stock_monitor"), ("symbol", JVal.str "AAPL"),
         ("interval", JVal.str "5m")] "notification_channel" "") = false ∧
    dictGet
      (merge_context
        [("intent", JVal.str "stock_monitor"), ("symbol", JVal.str "AAPL"),
         ("interval", JVal.str "5m")] "notification_channel" "")
      "notification_channel" = some (JVal.str "send_notification") := by
  exact ⟨by decide, rfl⟩

/-- C10, amended: `detect_missing_fields` counts a required field as missing
both when absent and when present with a falsy value; merging the falsy
answer `""` keeps every required field other than `notification_channel`
missing (the stored value is `""`, for `interval` because the normalizer
returns unknown phrases unchanged), so the conversation stays collecting
for those — but `notification_channel` is normalized to the truthy
`"send_notification"` and counts as filled. -/
theorem C10_falsy_handling :
    (∀ (intent : String) (entities : Dict) (field : String) (v : JVal),
       field ∈ (get_required_fields intent).1 →
       dictGet entities field = some v → pyTruthy v = false →
       field ∈ detect_missing_fields intent entities) ∧
    (∀ (ctx : Dict) (field : String), field ≠ "notification_channel" →
       dictGet (merge_context ctx field "") field = some (JVal.str "")) ∧
    (∀ (intent : String) (ctx : Dict) (field : String),
       field ∈ (get_required_fields intent).1 → field ≠ "notification_channel" →
       field ∈ detect_missing_fields intent (merge_context ctx field "")) ∧
    (∀ (intent : String) (ctx : Dict),
       "notification_channel" ∉
         detect_missing_fields intent (merge_context ctx "notification_channel" "")) := by
  have hmerge : ∀ (ctx : Dict) (field : String), field ≠ "notification_channel" →
      dictGet (merge_context ctx field "") field = some (JVal.str "") := by
    intro ctx field hne
    by_cases hint : field = "interval"
    · subst hint
      simpa [merge_context, normalize_interval_response, pyStrip, pyLower] using
        dictGet_dictSet ctx "interval" (JVal.str "")
    · simpa [merge_context, hne, hint] using
        dictGet_dictSet ctx field (JVal.str "")
  have hmem : ∀ (intent : String) (entities : Dict) (field : String) (v : JVal),
      field ∈ (get_required_fields intent).1 →
      dictGet entities field = some v → pyTruthy v = false →
      field ∈ detect_missing_fields intent entities := by
    intro intent entities field v hf hv ht
    refine List.mem_filter.2 ⟨hf, ?_⟩
    simp [fieldMissing, dictHas, hv, ht]
  refine ⟨hmem, hmerge, ?_, ?_⟩
  · intro intent ctx field hf hne
    exact hmem intent _ field (JVal.str "") hf (hmerge ctx field hne) (by decide)
  · intro intent ctx hmemc
    have hp := (List.mem_filter.1 hmemc).2
    have hg : dictGet (merge_context ctx "notification_channel" "")
        "notification_channel" = some (JVal.str "send_notification") := by
      simpa [merge_context, normalize_channel_response, pyStrip, pyLower] using
        dictGet_dictSet ctx "notification_channel" (JVal.str "send_notification")
    simp [fieldMissing, dictHas, hg, pyTruthy] at hp

-- ════════════════════════════════════════════════════════════════════
--  C8 — single-question invariant
-- ════════════════════════════════════════════════════════════════════

/-- C8: when at least one required field is missing, `get_next_question`
emits exactly one question, and it is about the first missing field in the
intent's fixed field order (every field before it in the table is filled);
in particular for intent `stock_monitor` with entities `{symbol: "AAPL"}`
the single question asks about `interval` (not `notification_channel`). -/
theorem C8_single_question (intent : String) (entities : Dict) (input_mode : String)
    (h : detect_missing_fields intent entities ≠ []) :
    (∃ resp, get_next_question intent entities input_mode = some resp ∧
       resp.needs_clarification = true ∧
       ∃ pre post, (get_required_fields intent).1 = pre ++ resp.missing_field :: post ∧
         (∀ f ∈ pre, fieldMissing entities f = false) ∧
         fieldMissing entities resp.missing_field = true) ∧
    (∃ resp, get_next_question "stock_monitor" [("symbol", JVal.str "AAPL")] "text" =
        some resp ∧
      resp.missing_field = "interval" ∧
      resp.question = "How often should I check?" ∧
      resp.needs_clarification = true) := by
  constructor
  · cases hm : detect_missing_fields intent entities with
    | nil => exact absurd hm h
    | cons f rest =>
        refine ⟨_, by rw [get_next_question, hm], rfl, ?_⟩
        exact filter_head_split (fieldMissing entities)
          (get_required_fields intent).1 f rest hm
  · exact ⟨_, rfl, rfl, rfl, rfl⟩

/-- C8, witness: the theorem applied at the Scenario-D input. -/
theorem C8_witness :
    (∃ resp, get_next_question "stock_monitor" [("symbol", JVal.str "AAPL")] "text" =
        some resp ∧
       resp.needs_clarification = true ∧
       ∃ pre post, (get_required_fields "stock_monitor").1 =
           pre ++ resp.missing_field :: post ∧
         (∀ f ∈ pre, fieldMissing [("symbol", JVal.str "AAPL")] f = false) ∧
         fieldMissing [("symbol", JVal.str "AAPL")] resp.missing_field = true) ∧
    (∃ resp, get_next_question "stock_monitor" [("symbol", JVal.str "AAPL")] "text" =
        some resp ∧
      resp.missing_field = "interval" ∧
      resp.question = "How often should I check?" ∧
      resp.needs_clarification = true) :=
  C8_single_question "stock_monitor" [("symbol", JVal.str "AAPL")] "text" (by decide)

-- ════════════════════════════════════════════════════════════════════
--  C9 — conversation completion path
-- ════════════════════════════════════════════════════════════════════

/-- C9: every automation built by `build_automation_from_context` has
trigger `{"type": "interval", "every": e}` with `e` the context's `interval`
entity when present and `"5m"` otherwise, regardless of intent (including
`price_alert`, whose required-field table has no `interval`); and the
conversation completion path returns it through `sanitize_automation` alone
— a context whose interval phrase is not a valid interval format yields an
automation that `validate_automation` would reject, yet it is returned. -/
theorem C9_interval_trigger_unvalidated (context : Dict) (a : Dict)
    (h : build_automation_from_context context = some a) :
    dictGet a "trigger" = some (JVal.obj [("type", JVal.str "interval"),
      ("every", (dictGet context "interval").getD (JVal.str "5m"))]) ∧
    (∃ b, conversation_complete
        [("intent", JVal.str "stock_monitor"), ("symbol", JVal.str "AAPL"),
         ("interval", JVal.str "every 2 minutes"),
         ("notification_channel", JVal.str "send_email")] = some b ∧
      needs_clarification "stock_monitor"
        [("intent", JVal.str "stock_monitor"), ("symbol", JVal.str "AAPL"),
         ("interval", JVal.str "every 2 minutes"),
         ("notification_channel", JVal.str "send_email")] = false ∧
      dictGet b "trigger" = some (JVal.obj [("type", JVal.str "interval"),
        ("every", JVal.str "every 2 minutes")]) ∧
      (validate_automation initialRegistryState b).1 = false) ∧
    (∃ c, build_automation_from_context
        [("intent", JVal.str "price_alert"), ("symbol", JVal.str "TSLA")] = some c ∧
      dictGet c "trigger" = some (JVal.obj [("type", JVal.str "interval"),
        ("every", JVal.str "5m")])) := by
  refine ⟨?_, ⟨_, rfl, by decide, rfl, by decide⟩, ⟨_, rfl, rfl⟩⟩
  simp only [build_automation_from_context, Option.bind_eq_bind,
    Option.bind_eq_some, Option.pure_def, Option.some.injEq] at h
  obtain ⟨fs, _, ns, _, nm, _, ha⟩ := h
  subst ha
  rfl

/-- C9, witness: the theorem applied to the empty context, whose built
automation is computed explicitly. -/
theorem C9_witness :
    dictGet
      [("name", JVal.str "AUTOMATION Custom"),
       ("description", JVal.str "Auto-generated custom automation"),
       ("trigger", JVal.obj [("type", JVal.str "interval"), ("every", JVal.str "5m")]),
       ("steps", JVal.arr [JVal.obj [("type", JVal.str "send_notification"),
         ("message", JVal.str "Automation update")]]),
       ("status", JVal.str "draft")] "trigger" =
      some (JVal.obj [("type", JVal.str "interval"),
        ("every", (dictGet ([] : Dict) "interval").getD (JVal.str "5m"))]) ∧
    (∃ b, conversation_complete
        [("intent", JVal.str "stock_monitor"), ("symbol", JVal.str "AAPL"),
         ("interval", JVal.str "every 2 minutes"),
         ("notification_channel", JVal.str "send_email")] = some b ∧
      needs_clarification "stock_monitor"
        [("intent", JVal.str "stock_monitor"), ("symbol", JVal.str "AAPL"),
         ("interval", JVal.str "every 2 minutes"),
         ("notification_channel", JVal.str "send_email")] = false ∧
      dictGet b "trigger" = some (JVal.obj [("type", JVal.str "interval"),
        ("every", JVal.str "every 2 minutes")]) ∧
      (validate_automation initialRegistryState b).1 = false) ∧
    (∃ c, build_automation_from_context
        [("intent", JVal.str "price_alert"), ("symbol", JVal.str "TSLA")] = some c ∧
      dictGet c "trigger" = some (JVal.obj [("type", JVal.str "interval"),
        ("every", JVal.str "5m")])) :=
  C9_interval_trigger_unvalidated []
    [("name", JVal.str "AUTOMATION Custom"),
     ("description", JVal.str "Auto-generated custom automation"),
     ("trigger", JVal.obj [("type", JVal.str "interval"), ("every", JVal.str "5m")]),
     ("steps", JVal.arr [JVal.obj [("type", JVal.str "send_notification"),
       ("message", JVal.str "Automation update")]]),
     ("status", JVal.str "draft")] rfl

-- ════════════════════════════════════════════════════════════════════
--  C2 — explicit model-declared errors
-- ════════════════════════════════════════════════════════════════════

/-- C2, counterexample to the claim as stated: with a model that always
answers the explicit error object `{"error": "unsupported request"}`,
`generate_with_retry` does NOT treat it as a terminal valid outcome — it
makes all 3 calls, records 3 failed attempts and returns failure, although
`validate_automation` itself passes the object through as valid. -/
theorem C2_counterexample :
    validate_automation initialRegistryState
      [("error", JVal.str "unsupported request")] = (true, none) ∧
    (generate_with_retry
        (fun _ => CallResult.ok "x" (Except.ok [("error", JVal.str "unsupported request")]))
        "req" initialRegistryState).calls.length = 3 ∧
    (generate_with_retry
        (fun _ => CallResult.ok "x" (Except.ok [("error", JVal.str "unsupported request")]))
        "req" initialRegistryState).records.map AttemptRecord.status =
      ["failed", "failed", "failed"] ∧
    (generate_with_retry
        (fun _ => CallResult.ok "x" (Except.ok [("error", JVal.str "unsupported request")]))
        "req" initialRegistryState).outcome =
      GenOutcome.failure (some "LLM returned error: unsupported request") := by
  exact ⟨rfl, by decide, by decide, rfl⟩

/-- C2, amended: `validate_automation` does pass an object with an `error`
key through as `(True, None)`, but `generate_with_retry` checks for the
`error` key *before* validating, raises `ValueError`, records a failed
attempt and retries: with such a response on every attempt it consumes the
whole 3-attempt budget and returns failure. -/
theorem C2_error_objects_are_retried (st : RegistryState) (data : Dict)
    (ur raw : String) (h : dictHas data "error" = true) :
    validate_automation st data = (true, none) ∧
    (generate_with_retry (fun _ => CallResult.ok raw (Except.ok data)) ur st).calls.length
      = 3 ∧
    (generate_with_retry (fun _ => CallResult.ok raw (Except.ok data)) ur st).records.map
      AttemptRecord.status = ["failed", "failed", "failed"] ∧
    (generate_with_retry (fun _ => CallResult.ok raw (Except.ok data)) ur st).outcome =
      GenOutcome.failure (some ("LLM returned error: " ++
        pyStr ((dictGet data "error").getD JVal.null))) := by
  refine ⟨by simp [validate_automation, h], ?_, ?_, ?_⟩ <;>
    simp [generate_with_retry, RETRY_CONFIG_max_attempts, generate_with_retry_aux,
      attempt_once, h, failedRecord]

/-- C2, witness: the amended theorem at a concrete error object. -/
theorem C2_witness :
    validate_automation initialRegistryState [("error", JVal.str "nope")] = (true, none) ∧
    (generate_with_retry
        (fun _ => CallResult.ok "raw" (Except.ok [("error", JVal.str "nope")]))
        "build me a thing" initialRegistryState).calls.length = 3 ∧
    (generate_with_retry
        (fun _ => CallResult.ok "raw" (Except.ok [("error", JVal.str "nope")]))
        "build me a thing" initialRegistryState).records.map AttemptRecord.status =
      ["failed", "failed", "failed"] ∧
    (generate_with_retry
        (fun _ => CallResult.ok "raw" (Except.ok [("error", JVal.str "nope")]))
        "build me a thing" initialRegistryState).outcome =
      GenOutcome.failure (some ("LLM returned error: " ++
        pyStr ((dictGet [("error", JVal.str "nope")] "error").getD JVal.null))) :=
  C2_error_objects_are_retried initialRegistryState [("error", JVal.str "nope")]
    "build me a thing" "raw" (by decide)

-- ════════════════════════════════════════════════════════════════════
--  The retry-loop trace invariant (shared by C4 and C5)
-- ════════════════════════════════════════════════════════════════════

/-- Every correction prompt in the call trace carries the error recorded for
the immediately preceding attempt: the prompt of attempt `i + 1` (call index
`i`, zero-based) embeds the error of the record at index `i - 1` (attempt
`i`). -/
def correctionSound (records : List AttemptRecord) (calls : List Prompt) : Prop :=
  ∀ i e o u a, calls.get? i = some (Prompt.correction e o u a) →
    1 ≤ i ∧ ∃ r, records.get? (i - 1) = some r ∧ r.error = some e

/-- `correctionSound` only looks at record indices below the calls length,
so appending records on the right preserves it. -/
lemma correctionSound_append_records {records : List AttemptRecord}
    {calls : List Prompt} (h : correctionSound records calls)
    (rs : List AttemptRecord) : correctionSound (records ++ rs) calls := by
  intro i e o u a hi
  obtain ⟨h1, r, hr, he⟩ := h i e o u a hi
  have hlt : i - 1 < records.length := (List.get?_eq_some.1 hr).1
  exact ⟨h1, r, by rw [List.get?_append hlt]; exact hr, he⟩

/-- The inductive invariant of the retry loop: entering an iteration with
`attempt = |records| + 1` and `|calls| = |records|`, all prior records
failed with a recorded error, and a sound trace so far, the final trace is
sound, grows by at most `fuel` calls, and an `HTTPException` outcome means
the last call raised it and no record was appended for it. -/
lemma generate_with_retry_aux_invariant (llm : Nat → CallResult) (ur : String)
    (st : RegistryState) :
    ∀ (fuel attempt : Nat) (acc : List AttemptRecord) (calls : List Prompt),
      attempt = acc.length + 1 →
      calls.length = acc.length →
      (∀ r ∈ acc, ∃ m, r.error = some m) →
      correctionSound acc calls →
      correctionSound (generate_with_retry_aux llm ur st fuel attempt acc calls).records
        (generate_with_retry_aux llm ur st fuel attempt acc calls).calls ∧
      (generate_with_retry_aux llm ur st fuel attempt acc calls).calls.length ≤
        calls.length + fuel ∧
      ((generate_with_retry_aux llm ur st fuel attempt acc calls).outcome =
          GenOutcome.httpError →
        llm (generate_with_retry_aux llm ur st fuel attempt acc calls).calls.length =
          CallResult.httpException ∧
        (generate_with_retry_aux llm ur st fuel attempt acc calls).records.length + 1 =
          (generate_with_retry_aux llm ur st fuel attempt acc calls).calls.length) := by
  intro fuel
  induction fuel with
  | zero =>
      intro attempt acc calls h1 h2 h3 h4
      refine ⟨h4, by simp [generate_with_retry_aux], ?_⟩
      intro habs
      simp [generate_with_retry_aux] at habs
  | succ fuel ih =>
      intro attempt acc calls h1 h2 h3 h4
      set p := (if attempt = 1 then Prompt.initial ur
        else
          Prompt.correction (prevErrorOf acc) (pyTake (prevOutputOf acc) 2000)
            ur (String.intercalate ", " (get_allowed_tool_names st))) with hp
      have hpcorr : ∀ e o u a, p = Prompt.correction e o u a →
          1 ≤ calls.length ∧
          ∃ r, acc.get? (calls.length - 1) = some r ∧ r.error = some e := by
        intro e o u a hpe
        by_cases hat : attempt = 1
        · rw [hpe, if_pos hat] at hp
          exact absurd hp.symm (by simp)
        · rw [hpe, if_neg hat] at hp
          have hlen : 1 ≤ acc.length := by
            rcases Nat.eq_zero_or_pos acc.length with hz | hpos
            · exact absurd (by rw [hz] at h1; simpa using h1) hat
            · exact hpos
          have hne : acc ≠ [] := by
            intro habs; rw [habs] at hlen; simp at hlen
          obtain ⟨r, hr⟩ := Option.isSome_iff_exists.1
            (List.getLast?_isSome.2 hne)
          obtain ⟨m, hm⟩ := h3 r (List.mem_of_mem_getLast? hr)
          have he : e = prevErrorOf acc := (Prompt.correction.inj hp).1
          have hpe2 : prevErrorOf acc = m := by
            simp [prevErrorOf, hr, hm]
          refine ⟨by omega, r, ?_, by rw [hm, he, hpe2]⟩
          rw [h2, ← List.getLast?_eq_get? acc]
          exact hr
      have hs1 : correctionSound acc (calls ++ [p]) := by
        intro i e o u a hi
        rcases Nat.lt_trichotomy i calls.length with hlt | heq | hgt
        · exact h4 i e o u a (by rwa [List.get?_append hlt] at hi)
        · subst heq
          rw [List.get?_concat_length] at hi
          obtain ⟨h1le, r, hr, he⟩ := hpcorr e o u a (Option.some.inj hi)
          exact ⟨h1le, r, hr, he⟩
        · have : (calls ++ [p]).get? i = none := by
            rw [List.get?_eq_none]
            simpa using hgt
          rw [this] at hi
          exact absurd hi (by simp)
      have hlen1 : (calls ++ [p]).length = acc.length + 1 := by
        simp [h2]
      cases hllm : llm attempt with
      | httpException =>
          have hstep : generate_with_retry_aux llm ur st (fuel + 1) attempt acc calls =
              ⟨.httpError, acc, calls ++ [p]⟩ := by
            simp only [generate_with_retry_aux, hllm]
          rw [hstep]
          refine ⟨hs1, ?_, ?_⟩
          · show (calls ++ [p]).length ≤ calls.length + (fuel + 1)
            rw [List.length_append]
            simp only [List.length_cons, List.length_nil]
            omega
          · intro _
            constructor
            · show llm (calls ++ [p]).length = CallResult.httpException
              rw [hlen1, ← h1]
              exact hllm
            · show acc.length + 1 = (calls ++ [p]).length
              rw [hlen1]
      | ok raw parsed =>
          cases hout : attempt_once st parsed with
          | ok automation =>
              have hstep : generate_with_retry_aux llm ur st (fuel + 1) attempt acc calls =
                  ⟨.success automation, acc ++ [⟨attempt, "success", none, none⟩],
                   calls ++ [p]⟩ := by
                simp only [generate_with_retry_aux, hllm, hout]
              rw [hstep]
              refine ⟨correctionSound_append_records hs1 _, ?_, ?_⟩
              · show (calls ++ [p]).length ≤ calls.length + (fuel + 1)
                rw [List.length_append]
                simp only [List.length_cons, List.length_nil]
                omega
              · intro habs
                exact absurd habs (by simp)
          | error errMsg =>
              have hstep : generate_with_retry_aux llm ur st (fuel + 1) attempt acc calls =
                  generate_with_retry_aux llm ur st fuel (attempt + 1)
                    (acc ++ [failedRecord attempt errMsg raw]) (calls ++ [p]) := by
                simp only [generate_with_retry_aux, hllm, hout]
              rw [hstep]
              have ihx := ih (attempt + 1) (acc ++ [failedRecord attempt errMsg raw])
                (calls ++ [p])
                (by simp [h1]) (by simp [h2])
                (by
                  intro r hr
                  rcases List.mem_append.1 hr with hr | hr
                  · exact h3 r hr
                  · obtain rfl : r = failedRecord attempt errMsg raw := by simpa using hr
                    exact ⟨errMsg, rfl⟩)
                (correctionSound_append_records hs1 _)
              refine ⟨ihx.1, ?_, ihx.2.2⟩
              calc (generate_with_retry_aux llm ur st fuel (attempt + 1)
                      (acc ++ [failedRecord attempt errMsg raw]) (calls ++ [p])).calls.length
                  ≤ (calls ++ [p]).length + fuel := ihx.2.1
                _ = calls.length + (fuel + 1) := by
                    rw [List.length_append]
                    simp only [List.length_cons, List.length_nil]
                    omega

-- ════════════════════════════════════════════════════════════════════
--  C4 — retry budget
-- ════════════════════════════════════════════════════════════════════

/-- C4: a single `generate_with_retry` run issues at most 3 model calls
(`max_attempts = 3`), and when the provider cascade raises `HTTPException`
the run ends at that very call: the exception propagates with no further
calls and no attempt record consumed for it. -/
theorem C4_retry_budget (llm : Nat → CallResult) (ur : String) (st : RegistryState) :
    RETRY_CONFIG_max_attempts = 3 ∧
    (generate_with_retry llm ur st).calls.length ≤ 3 ∧
    ((generate_with_retry llm ur st).outcome = GenOutcome.httpError →
      llm (generate_with_retry llm ur st).calls.length = CallResult.httpException ∧
      (generate_with_retry llm ur st).records.length + 1 =
        (generate_with_retry llm ur st).calls.length) := by
  have h := generate_with_retry_aux_invariant llm ur st 3 1 [] [] rfl rfl
    (by simp) (by intro i e o u a hi; simp at hi)
  exact ⟨rfl, h.2.1, h.2.2⟩

-- ════════════════════════════════════════════════════════════════════
--  C5 — error-message fidelity
-- ════════════════════════════════════════════════════════════════════

/-- C5: the error string embedded in the correction prompt of attempt
`i + 1` (call index `i`) equals exactly the `error` field of the Attempt
Record of the immediately preceding attempt `i` (record index `i - 1`). -/
theorem C5_error_message_fidelity (llm : Nat → CallResult) (ur : String)
    (st : RegistryState) (i : Nat) (e o u a : String)
    (h : (generate_with_retry llm ur st).calls.get? i =
      some (Prompt.correction e o u a)) :
    1 ≤ i ∧ ∃ r, (generate_with_retry llm ur st).records.get? (i - 1) = some r ∧
      r.error = some e := by
  have hinv := generate_with_retry_aux_invariant llm ur st 3 1 [] [] rfl rfl
    (by simp) (by intro i e o u a hi; simp at hi)
  exact hinv.1 i e o u a h

/-- A demonstration oracle for C5: two malformed responses, then a valid
automation. -/
def demoLLM : Nat → CallResult
  | 1 => .ok "garbled one"
      (.error "Failed to parse JSON: Expecting value: line 1 column 1 (char 0)")
  | 2 => .ok "garbled two" (.error "Failed to parse JSON: Extra data")
  | _ => .ok "ok"
      (.ok [("name", JVal.str "A"),
            ("trigger", JVal.obj [("type", JVal.str "manual")]),
            ("steps", JVal.arr [JVal.obj [("type", JVal.str "notify")]])])

/-- C5, witness: in the `demoLLM` run, the correction prompt of attempt 3
(call index 2) embeds attempt 2's recorded error — not attempt 1's. -/
theorem C5_witness :
    1 ≤ 2 ∧ ∃ r, (generate_with_retry demoLLM "make it" initialRegistryState).records.get?
        (2 - 1) = some r ∧ r.error = some "Failed to parse JSON: Extra data" :=
  C5_error_message_fidelity demoLLM "make it" initialRegistryState 2
    "Failed to parse JSON: Extra data" "garbled two" "make it"
    (String.intercalate ", " (get_allowed_tool_names initialRegistryState)) (by rfl)

end Engine
